import Mathlib

/-!
Verification of the meeting-persistence layer (`db_func.py`, `meeting_db.py`,
`user.py`, `meeting_record.py`) against its specification.

The SQLite layer is shallowly embedded: a database is a list of named tables,
a table keeps its declared columns, primary key, foreign keys and rows, and a
row is an association list from (upper-cased) column names to SQL values.
Each function of `db_func.py` is translated branch-for-branch; where the
Python builds a SQL string, the Lean definition implements the semantics the
SQLite engine gives to exactly that string (noted in comments).
-/

/-- Python's `str.upper()` on the ASCII identifiers this code base uses
(column and table names): upper-case every character. -/
def upcase (s : String) : String := ⟨s.data.map Char.toUpper⟩

/-- A SQL value as stored by SQLite for this schema: text, integer or NULL. -/
inductive Val where
  | s (v : String)
  | i (v : Int)
  | null
deriving DecidableEq, Repr

/-- A row: association list from upper-cased column name to value. -/
abbrev Row := List (String × Val)

/-- Fetch a column of a row (rows are always built with every declared
column present, so the `.null` default never fires on rows built by
`single_insert`). -/
def Row.getCol (r : Row) (c : String) : Val :=
  match r.find? (fun kv => kv.1 = c) with
  | some kv => kv.2
  | none => Val.null

/-- A declared column: name, datatype and the optional constraint string
(the second element of the Python spec's list, e.g. "NOT NULL"). -/
structure Column where
  name : String
  dtype : String
  constr : Option String
deriving DecidableEq, Repr

/-- A table: declared columns, primary-key column (as the generated SQL
declares it — `none` when no PRIMARY KEY clause was emitted), foreign keys
(column, referenced table) and the rows in insertion (rowid) order. -/
structure Table where
  cols : List Column
  primaryKey : Option String
  foreignKeys : List (String × String)
  rows : List Row
deriving DecidableEq, Repr

/-- The database: association list from upper-cased table name to table.
Models the single shared SQLite connection's visible state. -/
abbrev DB := List (String × Table)

def DB.lookupTable (db : DB) (name : String) : Option Table :=
  match db.find? (fun kv => kv.1 = name) with
  | some kv => some kv.2
  | none => none

def DB.setTable (db : DB) (name : String) (t : Table) : DB :=
  db.map (fun kv => if kv.1 = name then (kv.1, t) else kv)

/-- Errors the embedded engine can raise, mirroring the `sqlite3`
exceptions the generated SQL can produce. -/
inductive SqlError where
  | syntaxError      -- sqlite3.OperationalError: syntax error
  | noSuchTable      -- sqlite3.OperationalError: no such table
  | tableExists      -- sqlite3.OperationalError: table already exists
  | noSuchColumn     -- sqlite3.OperationalError: no such column
  | unknownFkColumn  -- sqlite3.OperationalError: unknown column in foreign key definition
  | integrityError   -- sqlite3.IntegrityError (NOT NULL / UNIQUE violation)
deriving DecidableEq, Repr

namespace DbFunc

/-- The table spec of `create_table` (`db_func.py` line 37): the Python dict
maps column name to `[datatype, specifiers]`, with two reserved keys
"Primary Key" (a column name) and "Foreign Key" (a list of
(column, referenced table) pairs). -/
structure TableSpec where
  columns : List (String × String × Option String)
  primaryKey : Option String
  foreignKeys : List (String × String)

/-- `db_func.create_table(conn, spec, name)` (`db_func.py` lines 37-69).

The Python concatenates one `COL TYPE ...` fragment per non-reserved key,
marks a column `NOT NULL UNIQUE PRIMARY KEY` only when it equals
`spec["Primary Key"]`, appends `FOREIGN KEY (C) REFERENCES REF(C)` clauses,
and executes `CREATE TABLE NAME(...)`. There is no validation: a primary-key
name that is not among the declared columns simply marks no column, so the
table is created without a primary key. SQLite rejects the statement when
the table already exists, when a foreign-key column is not a declared column
("unknown column ... in foreign key definition"), or when no column fragment
was produced at all (the `f_string[:-2]` slicing then yields a malformed
body). -/
def create_table (db : DB) (spec : TableSpec) (name : String) : Except SqlError DB :=
  if spec.columns.isEmpty then
    Except.error SqlError.syntaxError
  else if (db.lookupTable (upcase name)).isSome then
    Except.error SqlError.tableExists
  else if spec.foreignKeys.any
      (fun fk => ¬ spec.columns.any (fun c => (upcase c.1) = (upcase fk.1))) then
    Except.error SqlError.unknownFkColumn
  else
    let pk : Option String :=
      match spec.primaryKey with
      | some p => if spec.columns.any (fun c => c.1 = p) then some (upcase p) else none
      | none => none
    let t : Table :=
      { cols := spec.columns.map (fun c => ⟨(upcase c.1), (upcase c.2.1), c.2.2⟩)
        primaryKey := pk
        foreignKeys := spec.foreignKeys.map (fun fk => ((upcase fk.1), (upcase fk.2)))
        rows := [] }
    Except.ok (db ++ [((upcase name), t)])

/-- `db_func.drop_table(conn, name)` (`db_func.py` lines 72-77):
`DROP TABLE IF EXISTS NAME` — removing an absent table is a no-op. -/
def drop_table (db : DB) (name : String) : DB :=
  db.filter (fun kv => ¬ kv.1 = (upcase name))

/-- Whether a column must be non-null: an explicit "NOT NULL" specifier, or
being the primary key (`create_table` adds `NOT NULL UNIQUE` to it). -/
def colNotNull (t : Table) (c : Column) : Bool :=
  c.constr = some "NOT NULL" ∨ t.primaryKey = some c.name

/-- The next auto-assigned rowid for an INTEGER PRIMARY KEY column:
SQLite uses one more than the largest existing value. -/
def nextRowId (t : Table) (pk : String) : Int :=
  1 + t.rows.foldl (fun m r =>
    match r.getCol pk with
    | Val.i n => max m n
    | _ => m) 0

/-- Build the stored row for `single_insert`: every declared column is
present; a column named in the values dict takes that value, an omitted
INTEGER PRIMARY KEY column takes the auto rowid, anything else NULL. -/
def buildRow (t : Table) (vals : List (String × Val)) : Row :=
  t.cols.map (fun c =>
    match vals.find? (fun kv => (upcase kv.1) = c.name) with
    | some kv => (c.name, kv.2)
    | none =>
      if t.primaryKey = some c.name ∧ c.dtype = "INTEGER" then
        (c.name, Val.i (nextRowId t c.name))
      else
        (c.name, Val.null))

/-- `db_func.single_insert(conn, cmd_dict, name)` (`db_func.py` lines 85-103).

The Python builds `INSERT INTO NAME (COLS...) VALUES (?...)` from the dict.
With an empty dict the statement degenerates to `INSERT INTO NAME () VALUES ();`,
which SQLite rejects with a syntax error before touching the table. A key
that names no declared column raises "no such column". The engine then
enforces NOT NULL and the primary key's UNIQUE; an omitted INTEGER PRIMARY
KEY column receives the auto rowid. On success the row is appended. -/
def single_insert (db : DB) (cmd_dict : List (String × Val)) (name : String) :
    Except SqlError DB :=
  if cmd_dict.isEmpty then
    Except.error SqlError.syntaxError
  else
    match db.lookupTable (upcase name) with
    | none => Except.error SqlError.noSuchTable
    | some t =>
      if cmd_dict.any (fun kv => ¬ t.cols.any (fun c => c.name = (upcase kv.1))) then
        Except.error SqlError.noSuchColumn
      else
        let row := buildRow t cmd_dict
        if t.cols.any (fun c => colNotNull t c ∧ row.getCol c.name = Val.null) then
          Except.error SqlError.integrityError
        else
          match t.primaryKey with
          | some pk =>
            -- An omitted INTEGER PRIMARY KEY receives a fresh rowid strictly
            -- larger than every existing one, so only an explicitly supplied
            -- key value can violate UNIQUE.
            if cmd_dict.any (fun kv => (upcase kv.1) = pk)
                ∧ t.rows.any (fun r => r.getCol pk = row.getCol pk) then
              Except.error SqlError.integrityError
            else
              Except.ok (db.setTable (upcase name) { t with rows := t.rows ++ [row] })
          | none =>
            Except.ok (db.setTable (upcase name) { t with rows := t.rows ++ [row] })

/-- Whether a row satisfies every equality of a WHERE dict
(`K = ? AND K = ? ...`, each value bound as a parameter). -/
def rowMatches (r : Row) (kvs : List (String × Val)) : Bool :=
  kvs.all (fun kv => r.getCol (upcase kv.1) = kv.2)

/-- SQLite's total ordering on our values: NULL sorts before integers,
integers before text; integers numerically, text by string comparison. -/
def valLe (a b : Val) : Bool :=
  match a, b with
  | Val.null, _ => true
  | _, Val.null => false
  | Val.i x, Val.i y => decide (x ≤ y)
  | Val.i _, Val.s _ => true
  | Val.s _, Val.i _ => false
  | Val.s x, Val.s y => ¬ decide (y < x)

/-- Insert a row into a list sorted by `le` on `key`, after every element
whose key compares ≤ (a stable insertion). -/
def insertRow (le : Val → Val → Bool) (key : Row → Val) (x : Row) :
    List Row → List Row
  | [] => [x]
  | y :: ys =>
    if le (key y) (key x) then y :: insertRow le key x ys
    else x :: y :: ys

/-- A deterministic comparison sort modelling SQLite's ORDER BY. -/
def sortRows (le : Val → Val → Bool) (key : Row → Val) : List Row → List Row
  | [] => []
  | x :: xs => insertRow le key x (sortRows le key xs)

/-- The `order_by` argument of `db_func.select` as the verified call sites
use it. The Python accepts a list of column names or a raw string that it
upper-cases and splices after `ORDER BY`:
  * `asc c` — the plain column-name string `"c"` (ascending);
  * `desc c` — the string `"c DESC"`;
  * `descPaged c lim off` — the string `"c DESC LIMIT lim OFFSET off"`
    built by `get_all_meetings`, which SQLite reads as a descending sort
    followed by OFFSET-skip and LIMIT-take.
(The list form and other raw strings are not exercised by the code under
verification and are not modelled.) -/
inductive OrderBy where
  | asc (c : String)
  | desc (c : String)
  | descPaged (c : String) (lim : Nat) (off : Nat)

/-- Apply an ORDER BY directive to a result set. -/
def applyOrder : Option OrderBy → List Row → List Row
  | none, rows => rows
  | some (OrderBy.asc c), rows => sortRows valLe (fun r => r.getCol (upcase c)) rows
  | some (OrderBy.desc c), rows =>
    sortRows (fun a b => valLe b a) (fun r => r.getCol (upcase c)) rows
  | some (OrderBy.descPaged c lim off), rows =>
    ((sortRows (fun a b => valLe b a) (fun r => r.getCol (upcase c)) rows).drop off).take lim

/-- Project a row to the requested columns; an empty list means `SELECT *`
(`db_func.py` lines 113-118). -/
def projectRow (col_list : List String) (r : Row) : Row :=
  if col_list.isEmpty then r
  else r.filter (fun kv => col_list.any (fun c => (upcase c) = kv.1))

/-- `db_func.select(conn, col_list, where_clause, order_by, name)`
(`db_func.py` lines 111-151), at the argument shapes the verified call
sites use (`where_clause` a dict or `None`; the raw-string WHERE branch is
not modelled).

With a nonempty dict the statement is `... WHERE K = ? AND ...`; with an
EMPTY dict the Python appends `" WHERE "` and then slices five characters
off, producing `SELECT ... FROM NAME W;` — SQLite parses the dangling `W`
as a table alias, so the query returns every row, exactly as if no
predicate had been given. Filtering with an empty conjunction models both. -/
def select (db : DB) (col_list : List String)
    (where_clause : Option (List (String × Val))) (order_by : Option OrderBy)
    (name : String) : Except SqlError (List Row) :=
  match db.lookupTable (upcase name) with
  | none => Except.error SqlError.noSuchTable
  | some t =>
    let filtered :=
      match where_clause with
      | none => t.rows
      | some kvs => t.rows.filter (fun r => rowMatches r kvs)
    Except.ok ((applyOrder order_by filtered).map (projectRow col_list))

/-- `db_func.delete(conn, cmd_dict, name)` (`db_func.py` lines 193-217), at
the argument shapes the verified call sites use (a dict or `None`).

`None` yields `DELETE FROM NAME;` (all rows); a nonempty dict yields
`DELETE FROM NAME WHERE K = ? AND ...`. An EMPTY dict appends `" WHERE "`
and slices five characters off, producing `DELETE FROM NAME W;` — unlike
SELECT, SQLite's DELETE grammar only admits an alias introduced by `AS`,
so this statement is a syntax error: nothing is deleted and the error is
raised (verified against SQLite). Returns the new database and the number
of rows deleted (`cursor.rowcount`). -/
def delete (db : DB) (cmd_dict : Option (List (String × Val))) (name : String) :
    Except SqlError (DB × Nat) :=
  match cmd_dict with
  | some [] => Except.error SqlError.syntaxError
  | _ =>
    match db.lookupTable (upcase name) with
    | none => Except.error SqlError.noSuchTable
    | some t =>
      let keep :=
        match cmd_dict with
        | none => []
        | some kvs => t.rows.filter (fun r => ¬ rowMatches r kvs)
      Except.ok (db.setTable (upcase name) { t with rows := keep },
        t.rows.length - keep.length)

end DbFunc

/-!
The Aggregate Mapper: `meeting_db.py` (`MeetingDatabase`). The connection's
visible state is the `DB` value; every method threads it explicitly.
-/

namespace MeetingDb

open DbFunc

/-- The `meetings_spec` dict (`meeting_db.py` lines 43-50). -/
def meetings_spec : TableSpec :=
  { columns :=
      [ ("id", "TEXT", some "NOT NULL")
      , ("created_at", "TEXT", some "NOT NULL")
      , ("title", "TEXT", some "NOT NULL")
      , ("transcript", "TEXT", none)
      , ("summary_heading", "TEXT", none) ]
    primaryKey := some "id"
    foreignKeys := [] }

/-- The `key_points_spec` dict (`meeting_db.py` lines 54-61). -/
def key_points_spec : TableSpec :=
  { columns :=
      [ ("id", "INTEGER", some "NOT NULL")
      , ("meeting_id", "TEXT", some "NOT NULL")
      , ("point", "TEXT", some "NOT NULL")
      , ("point_order", "INTEGER", some "NOT NULL") ]
    primaryKey := some "id"
    foreignKeys := [("meeting_id", "meetings")] }

/-- The `action_items_spec` dict (`meeting_db.py` lines 65-74). -/
def action_items_spec : TableSpec :=
  { columns :=
      [ ("id", "INTEGER", some "NOT NULL")
      , ("meeting_id", "TEXT", some "NOT NULL")
      , ("assignee", "TEXT", none)
      , ("task", "TEXT", some "NOT NULL")
      , ("deadline", "TEXT", none)
      , ("item_order", "INTEGER", some "NOT NULL") ]
    primaryKey := some "id"
    foreignKeys := [("meeting_id", "meetings")] }

/-- The `decisions_spec` dict (`meeting_db.py` lines 78-85). -/
def decisions_spec : TableSpec :=
  { columns :=
      [ ("id", "INTEGER", some "NOT NULL")
      , ("meeting_id", "TEXT", some "NOT NULL")
      , ("decision", "TEXT", some "NOT NULL")
      , ("decision_order", "INTEGER", some "NOT NULL") ]
    primaryKey := some "id"
    foreignKeys := [("meeting_id", "meetings")] }

/-- `MeetingDatabase._create_tables` (`meeting_db.py` lines 39-86): four
`create_table` calls in sequence; any engine error propagates. -/
def _create_tables (db : DB) : Except SqlError DB := do
  let db ← create_table db meetings_spec "meetings"
  let db ← create_table db key_points_spec "key_points"
  let db ← create_table db action_items_spec "action_items"
  create_table db decisions_spec "decisions"

/-- `MeetingDatabase._init_schema` (`meeting_db.py` lines 27-37): probe with
a no-predicate select against the `meetings` table only; the bare `except:`
turns ANY error from that one probe into a `_create_tables()` call. Errors
raised by `_create_tables` itself are not caught. -/
def _init_schema (db : DB) : Except SqlError DB :=
  match select db [] none none "meetings" with
  | Except.ok _ => Except.ok db
  | Except.error _ => _create_tables db

/-- An action-item input dict as `save_meeting` consumes it
(`meeting_db.py` lines 136-144): the Python reads it only through
`item.get("assignee", "Unassigned")`, `item.get("task", "")` and
`item.get("deadline")`. `none` models an absent key; for `deadline`,
`dict.get` returns `None` for an absent key and for an explicit `None`
value alike, so `none` covers both. -/
structure ActionItemInput where
  assignee : Option String
  task : Option String
  deadline : Option String
deriving DecidableEq, Repr

/-- The values dict inserted for one action item (`meeting_db.py`
lines 137-143). -/
def actionItemDict (meeting_id : String) (item : ActionItemInput) (idx : Nat) :
    List (String × Val) :=
  [ ("meeting_id", Val.s meeting_id)
  , ("assignee", Val.s (item.assignee.getD "Unassigned"))
  , ("task", Val.s (item.task.getD ""))
  , ("deadline", match item.deadline with | some d => Val.s d | none => Val.null)
  , ("item_order", Val.i idx) ]

/-- The `for idx, point in enumerate(key_points)` insert loop of
`save_meeting` (`meeting_db.py` lines 131-133), started at index `idx`. -/
def insertKeyPoints (meeting_id : String) : List String → Nat → DB →
    Except SqlError DB
  | [], _, db => Except.ok db
  | point :: rest, idx, db => do
    let db ← single_insert db
      [ ("meeting_id", Val.s meeting_id), ("point", Val.s point)
      , ("point_order", Val.i idx) ] "key_points"
    insertKeyPoints meeting_id rest (idx + 1) db

/-- The action-item insert loop of `save_meeting` (`meeting_db.py`
lines 136-144). -/
def insertActionItems (meeting_id : String) : List ActionItemInput → Nat → DB →
    Except SqlError DB
  | [], _, db => Except.ok db
  | item :: rest, idx, db => do
    let db ← single_insert db (actionItemDict meeting_id item idx) "action_items"
    insertActionItems meeting_id rest (idx + 1) db

/-- The decision insert loop of `save_meeting` (`meeting_db.py`
lines 147-149). -/
def insertDecisions (meeting_id : String) : List String → Nat → DB →
    Except SqlError DB
  | [], _, db => Except.ok db
  | decision :: rest, idx, db => do
    let db ← single_insert db
      [ ("meeting_id", Val.s meeting_id), ("decision", Val.s decision)
      , ("decision_order", Val.i idx) ] "decisions"
    insertDecisions meeting_id rest (idx + 1) db

/-- `MeetingDatabase.save_meeting` (`meeting_db.py` lines 88-151): parent
row first, then the three ordered child collections, each child row's order
column set to its list index; returns the meeting id. `created_at` is taken
as an argument: the Python's `None` default substitutes the current UTC
time, an environment input we pass explicitly. Each `single_insert` commits
independently; an error leaves earlier inserts in place (surfaced here by
`Except`). -/
def save_meeting (db : DB) (meeting_id title transcript summary_heading : String)
    (key_points : List String) (action_items : List ActionItemInput)
    (decisions : List String) (created_at : String) :
    Except SqlError (DB × String) := do
  let db ← single_insert db
    [ ("id", Val.s meeting_id), ("created_at", Val.s created_at)
    , ("title", Val.s title), ("transcript", Val.s transcript)
    , ("summary_heading", Val.s summary_heading) ] "meetings"
  let db ← insertKeyPoints meeting_id key_points 0 db
  let db ← insertActionItems meeting_id action_items 0 db
  let db ← insertDecisions meeting_id decisions 0 db
  Except.ok (db, meeting_id)

/-- An action item as reassembled by `get_meeting` (`meeting_db.py`
lines 182-189). -/
structure ActionItemOut where
  assignee : Val
  task : Val
  deadline : Val
deriving DecidableEq, Repr

/-- A reassembled meeting aggregate: the lower-cased scalar fields of the
parent row plus the three reconstructed lists (`meeting_db.py`
lines 170-195). -/
structure Meeting where
  id : Val
  created_at : Val
  title : Val
  transcript : Val
  summary_heading : Val
  key_points : List Val
  action_items : List ActionItemOut
  decisions : List Val
deriving DecidableEq, Repr

/-- The child-reassembly block shared verbatim by `get_meeting`
(`meeting_db.py` lines 172-195) and `get_all_meetings` (lines 229-252):
three selects filtered by the parent's id, each ordered by its position
column ascending, projected to the payload columns. -/
def assembleMeeting (db : DB) (row : Row) : Except SqlError Meeting := do
  let mid := row.getCol "ID"
  let points ← select db [] (some [("meeting_id", mid)])
    (some (OrderBy.asc "point_order")) "key_points"
  let actions ← select db [] (some [("meeting_id", mid)])
    (some (OrderBy.asc "item_order")) "action_items"
  let decs ← select db [] (some [("meeting_id", mid)])
    (some (OrderBy.asc "decision_order")) "decisions"
  Except.ok
    { id := mid
      created_at := row.getCol "CREATED_AT"
      title := row.getCol "TITLE"
      transcript := row.getCol "TRANSCRIPT"
      summary_heading := row.getCol "SUMMARY_HEADING"
      key_points := points.map (fun r => r.getCol "POINT")
      action_items := actions.map (fun r =>
        { assignee := r.getCol "ASSIGNEE", task := r.getCol "TASK"
          deadline := r.getCol "DEADLINE" })
      decisions := decs.map (fun r => r.getCol "DECISION") }

/-- `MeetingDatabase.get_meeting` (`meeting_db.py` lines 153-197): select
the parent row by id; `None` when absent; otherwise reassemble the
aggregate from the parent row and the three ordered child selects. -/
def get_meeting (db : DB) (meeting_id : String) :
    Except SqlError (Option Meeting) := do
  let meetings ← select db [] (some [("id", Val.s meeting_id)]) none "meetings"
  match meetings with
  | [] => Except.ok none
  | row :: _ => do
    let m ← assembleMeeting db row
    Except.ok (some m)

/-- The per-parent reassembly loop of `get_all_meetings` (`meeting_db.py`
lines 223-254). -/
def assembleAll (db : DB) : List Row → Except SqlError (List Meeting)
  | [] => Except.ok []
  | row :: rest => do
    let m ← assembleMeeting db row
    let ms ← assembleAll db rest
    Except.ok (m :: ms)

/-- `MeetingDatabase.get_all_meetings` (`meeting_db.py` lines 199-256) at
its default ordering `"created_at DESC"`: with a limit the Python splices
`"... LIMIT limit OFFSET offset"` into the ORDER BY string, which SQLite
reads as descending sort, offset skip, limit take; without a limit only
the descending sort. Each returned parent is reassembled like
`get_meeting`. -/
def get_all_meetings (db : DB) (limit : Option Nat) (offset : Nat) :
    Except SqlError (List Meeting) := do
  let order :=
    match limit with
    | some lim => OrderBy.descPaged "created_at" lim offset
    | none => OrderBy.desc "created_at"
  let rows ← select db [] none (some order) "meetings"
  assembleAll db rows

/-- `MeetingDatabase.count_meetings` (`meeting_db.py` lines 258-266):
length of an unfiltered select on `meetings`. -/
def count_meetings (db : DB) : Except SqlError Nat := do
  let meetings ← select db [] none none "meetings"
  Except.ok meetings.length

/-- `MeetingDatabase.delete_meeting` (`meeting_db.py` lines 268-285): delete
the child rows of the three child tables by `meeting_id`, then the parent
row by `id`; returns whether a parent row was deleted. -/
def delete_meeting (db : DB) (meeting_id : String) :
    Except SqlError (DB × Bool) := do
  let (db, _) ← delete db (some [("meeting_id", Val.s meeting_id)]) "key_points"
  let (db, _) ← delete db (some [("meeting_id", Val.s meeting_id)]) "action_items"
  let (db, _) ← delete db (some [("meeting_id", Val.s meeting_id)]) "decisions"
  let (db, deleted_count) ← delete db (some [("id", Val.s meeting_id)]) "meetings"
  Except.ok (db, decide (deleted_count > 0))

end MeetingDb

/-!
Field-path updates: `MeetingRecord` (`meeting_record.py`) and
`User.update_meeting` (`user.py` lines 73-84).
-/

namespace UserMod

/-- A Python dict key as this code can produce one: the string field names
of an action-item dict, or an integer when the 2-tuple branch assigns into
a dict-valued field. -/
inductive PyKey where
  | str (s : String)
  | int (n : Int)
deriving DecidableEq, Repr

/-- Enough of Python's value universe for the field-path update code:
strings, integers, `None`, lists, and dicts. -/
inductive PyVal where
  | str (s : String)
  | int (n : Int)
  | pynone
  | list (xs : List PyVal)
  | dict (kvs : List (PyKey × PyVal))

/-- A `MeetingRecord` instance as its attribute dictionary
(`meeting_record.py`): `get_field` is `getattr(self, field, None)` and
`set_field` is `setattr` (`meeting_record.py` lines 35-40). -/
abbrev MeetingRecord := List (String × PyVal)

/-- `MeetingRecord.get_field` (`meeting_record.py` lines 35-36):
`getattr(self, field, None)`. -/
def get_field (rec : MeetingRecord) (field : String) : PyVal :=
  match rec.find? (fun kv => kv.1 = field) with
  | some kv => kv.2
  | none => PyVal.pynone

/-- `MeetingRecord.set_field` (`meeting_record.py` lines 39-40):
`setattr(self, field, value)` — replace the attribute, or add it. -/
def set_field (rec : MeetingRecord) (field : String) (value : PyVal) :
    MeetingRecord :=
  if rec.any (fun kv => kv.1 = field) then
    rec.map (fun kv => if kv.1 = field then (kv.1, value) else kv)
  else
    rec ++ [(field, value)]

/-- The `field` tuple of `User.update_meeting` (`user.py` lines 68-70):
a 1-, 2- or 3-element tuple. Python indices are `Int` (negative indexing
included). -/
inductive FieldPath where
  | scalar (f : String)
  | listElem (f : String) (i : Int)
  | mapField (f : String) (i : Int) (k : String)

/-- Python's `xs[i] = v` on a list: indices `-len ≤ i < len` are accepted
(negative counts from the end), anything else raises `IndexError`. The
result is the updated list. -/
def listAssign (xs : List PyVal) (i : Int) (v : PyVal) :
    Except String (List PyVal) :=
  let n : Int := xs.length
  let j := if i < 0 then i + n else i
  if 0 ≤ j ∧ j < n then
    Except.ok (xs.set j.toNat v)
  else
    Except.error "IndexError"

/-- Python's `xs[i]` read on a list, same index rules. -/
def listIndex (xs : List PyVal) (i : Int) : Except String PyVal :=
  let n : Int := xs.length
  let j := if i < 0 then i + n else i
  if 0 ≤ j ∧ j < n then
    match xs.get? j.toNat with
    | some x => Except.ok x
    | none => Except.error "IndexError"
  else
    Except.error "IndexError"

/-- Python's `d[k] = v` on a dict (adds or overwrites the key). -/
def dictAssign (kvs : List (PyKey × PyVal)) (k : PyKey) (v : PyVal) :
    List (PyKey × PyVal) :=
  if kvs.any (fun kv => kv.1 = k) then
    kvs.map (fun kv => if kv.1 = k then (kv.1, v) else kv)
  else
    kvs ++ [(k, v)]

/-- Python's `d[k]` read on a dict: the stored value, or `KeyError` when
the key is absent. -/
def dictRead (kvs : List (PyKey × PyVal)) (k : PyKey) : Except String PyVal :=
  match kvs.find? (fun kv => kv.1 = k) with
  | some kv => Except.ok kv.2
  | none => Except.error "KeyError"

/-- Python's `s[i]` read on a string: the one-character string at the
(possibly negative) index, or `IndexError` when out of range. -/
def strIndex (s : String) (i : Int) : Except String PyVal :=
  let n : Int := s.length
  let j := if i < 0 then i + n else i
  if 0 ≤ j ∧ j < n then
    Except.ok (PyVal.str ⟨[s.data.getD j.toNat ' ']⟩)
  else
    Except.error "IndexError"

/-- Python's `target[i] = v` for the 2-tuple branch (`user.py` line 79):
item assignment succeeds on a list (when the index is in range — otherwise
`IndexError`) and on a dict (the integer key is added or overwritten); a
string raises `TypeError` (strings are immutable, no item assignment), an
integer or `None` raises `TypeError` (not subscriptable). -/
def itemAssign (target : PyVal) (i : Int) (v : PyVal) : Except String PyVal :=
  match target with
  | PyVal.list xs => (listAssign xs i v).map PyVal.list
  | PyVal.dict kvs => Except.ok (PyVal.dict (dictAssign kvs (PyKey.int i) v))
  | PyVal.str _ => Except.error "TypeError"
  | PyVal.int _ => Except.error "TypeError"
  | PyVal.pynone => Except.error "TypeError"

/-- Python values that accept no item assignment: strings (immutable,
though they do support subscript reads), integers and `None` (not
subscriptable at all). Lists and dicts are excluded — both accept item
assignment. -/
def isScalar : PyVal → Bool
  | PyVal.str _ => true
  | PyVal.int _ => true
  | PyVal.pynone => true
  | PyVal.list _ => false
  | PyVal.dict _ => false

/-- The first path component (`field[0]`). -/
def FieldPath.fst : FieldPath → String
  | FieldPath.scalar f => f
  | FieldPath.listElem f _ => f
  | FieldPath.mapField f _ _ => f

/-- The outcome of `User.update_meeting`: the exception raised (by its
Python class name) if any, the record's attribute state after the call,
and whether any persistence call executed. -/
structure UpdateResult where
  err : Option String
  record : MeetingRecord
  persisted : Bool

/-- `User.update_meeting(self, conn, meeting_index, field, change)`
(`user.py` lines 73-84), on the addressed record.

The Python performs no validation. Line 79 (`m_value[field[1]] = change`)
is an item assignment: `IndexError` on an out-of-range list index,
`TypeError` on a string (no item assignment) or a non-subscriptable value;
on a dict it succeeds, adding the integer key. Line 81
(`m_value[field[1]][field[2]] = change`) first evaluates the subscript
READ `m_value[field[1]]` — `IndexError` on an out-of-range list or string
index, `KeyError` on an absent dict key, `TypeError` on a
non-subscriptable value — and then assigns into the result, which raises
`TypeError` unless that result is a dict (the dict is mutated in place, so
the containing list or dict sees the change). Any such exception aborts
the method before `set_field` and before the persistence line. The
persistence line itself, `update_meeting(conn, ...)` (line 84), refers to
a name that is bound nowhere in the module — `class_helpers` is imported
only qualified — so even a fully valid path raises `NameError` there,
after the in-memory mutation, and no persistence ever executes. -/
def update_meeting (meeting : MeetingRecord) (field : FieldPath)
    (change : PyVal) : UpdateResult :=
  let m_value := get_field meeting field.fst
  match field with
  | FieldPath.scalar f =>
    -- len(field) == 1: m_value = change, then set_field
    { err := some "NameError"
      record := set_field meeting f change
      persisted := false }
  | FieldPath.listElem f i =>
    -- len(field) == 2: m_value[field[1]] = change
    match itemAssign m_value i change with
    | Except.error e => { err := some e, record := meeting, persisted := false }
    | Except.ok newVal =>
      { err := some "NameError"
        record := set_field meeting f newVal
        persisted := false }
  | FieldPath.mapField f i k =>
    -- len(field) == 3: m_value[field[1]][field[2]] = change
    -- (subscript read of m_value[field[1]], then item assignment into it)
    match m_value with
    | PyVal.list xs =>
      match listIndex xs i with
      | Except.error e => { err := some e, record := meeting, persisted := false }
      | Except.ok elem =>
        match elem with
        | PyVal.dict kvs =>
          -- the element dict is mutated in place; its list cell still holds it
          match listAssign xs i (PyVal.dict (dictAssign kvs (PyKey.str k) change)) with
          | Except.error e =>
            { err := some e, record := meeting, persisted := false }
          | Except.ok xs2 =>
            { err := some "NameError"
              record := set_field meeting f (PyVal.list xs2)
              persisted := false }
        | _ => { err := some "TypeError", record := meeting, persisted := false }
    | PyVal.dict kvs =>
      match dictRead kvs (PyKey.int i) with
      | Except.error e => { err := some e, record := meeting, persisted := false }
      | Except.ok v =>
        match v with
        | PyVal.dict kvs2 =>
          -- the value dict is mutated in place; its entry still holds it
          { err := some "NameError"
            record := set_field meeting f (PyVal.dict (dictAssign kvs (PyKey.int i)
              (PyVal.dict (dictAssign kvs2 (PyKey.str k) change))))
            persisted := false }
        | _ => { err := some "TypeError", record := meeting, persisted := false }
    | PyVal.str s =>
      match strIndex s i with
      | Except.error e => { err := some e, record := meeting, persisted := false }
      | Except.ok _ =>
        -- the one-character string accepts no item assignment
        { err := some "TypeError", record := meeting, persisted := false }
    | PyVal.int _ => { err := some "TypeError", record := meeting, persisted := false }
    | PyVal.pynone => { err := some "TypeError", record := meeting, persisted := false }

end UserMod

/-!
The concrete tables `_create_tables` produces (with arbitrary row
contents), used to state the Aggregate Mapper theorems over any database
that carries the standard schema.
-/

namespace MeetingDb

open DbFunc

/-- The `meetings` table as `create_table` builds it from `meetings_spec`,
holding the given rows. -/
def meetingsTable (rows : List Row) : Table :=
  { cols :=
      [ ⟨"ID", "TEXT", some "NOT NULL"⟩
      , ⟨"CREATED_AT", "TEXT", some "NOT NULL"⟩
      , ⟨"TITLE", "TEXT", some "NOT NULL"⟩
      , ⟨"TRANSCRIPT", "TEXT", none⟩
      , ⟨"SUMMARY_HEADING", "TEXT", none⟩ ]
    primaryKey := some "ID"
    foreignKeys := []
    rows := rows }

/-- The `key_points` table as built from `key_points_spec`. -/
def keyPointsTable (rows : List Row) : Table :=
  { cols :=
      [ ⟨"ID", "INTEGER", some "NOT NULL"⟩
      , ⟨"MEETING_ID", "TEXT", some "NOT NULL"⟩
      , ⟨"POINT", "TEXT", some "NOT NULL"⟩
      , ⟨"POINT_ORDER", "INTEGER", some "NOT NULL"⟩ ]
    primaryKey := some "ID"
    foreignKeys := [("MEETING_ID", "MEETINGS")]
    rows := rows }

/-- The `action_items` table as built from `action_items_spec`. -/
def actionItemsTable (rows : List Row) : Table :=
  { cols :=
      [ ⟨"ID", "INTEGER", some "NOT NULL"⟩
      , ⟨"MEETING_ID", "TEXT", some "NOT NULL"⟩
      , ⟨"ASSIGNEE", "TEXT", none⟩
      , ⟨"TASK", "TEXT", some "NOT NULL"⟩
      , ⟨"DEADLINE", "TEXT", none⟩
      , ⟨"ITEM_ORDER", "INTEGER", some "NOT NULL"⟩ ]
    primaryKey := some "ID"
    foreignKeys := [("MEETING_ID", "MEETINGS")]
    rows := rows }

/-- The `decisions` table as built from `decisions_spec`. -/
def decisionsTable (rows : List Row) : Table :=
  { cols :=
      [ ⟨"ID", "INTEGER", some "NOT NULL"⟩
      , ⟨"MEETING_ID", "TEXT", some "NOT NULL"⟩
      , ⟨"DECISION", "TEXT", some "NOT NULL"⟩
      , ⟨"DECISION_ORDER", "INTEGER", some "NOT NULL"⟩ ]
    primaryKey := some "ID"
    foreignKeys := [("MEETING_ID", "MEETINGS")]
    rows := rows }

/-- A database carrying the four standard tables with the given row
contents — the shape every database initialised by `_create_tables` has. -/
def mkStdDb (m k a d : List Row) : DB :=
  [ ("MEETINGS", meetingsTable m)
  , ("KEY_POINTS", keyPointsTable k)
  , ("ACTION_ITEMS", actionItemsTable a)
  , ("DECISIONS", decisionsTable d) ]

/-- The parent row `save_meeting` inserts (`meeting_db.py` lines 121-128). -/
def meetingRow (mid created title transcript sh : String) : Row :=
  [ ("ID", Val.s mid), ("CREATED_AT", Val.s created), ("TITLE", Val.s title)
  , ("TRANSCRIPT", Val.s transcript), ("SUMMARY_HEADING", Val.s sh) ]

/-- The stored row for one key point: auto rowid, parent id, text,
position (`meeting_db.py` line 132). -/
def kpRow (rid : Int) (mid point : String) (idx : Nat) : Row :=
  [ ("ID", Val.i rid), ("MEETING_ID", Val.s mid), ("POINT", Val.s point)
  , ("POINT_ORDER", Val.i (idx : Int)) ]

/-- The stored row for one action item (`meeting_db.py` lines 137-143). -/
def aiRow (rid : Int) (mid : String) (it : ActionItemInput) (idx : Nat) : Row :=
  [ ("ID", Val.i rid), ("MEETING_ID", Val.s mid)
  , ("ASSIGNEE", Val.s (it.assignee.getD "Unassigned"))
  , ("TASK", Val.s (it.task.getD ""))
  , ("DEADLINE", match it.deadline with | some dd => Val.s dd | none => Val.null)
  , ("ITEM_ORDER", Val.i (idx : Int)) ]

/-- The stored row for one decision (`meeting_db.py` line 148). -/
def decRow (rid : Int) (mid decision : String) (idx : Nat) : Row :=
  [ ("ID", Val.i rid), ("MEETING_ID", Val.s mid), ("DECISION", Val.s decision)
  , ("DECISION_ORDER", Val.i (idx : Int)) ]

/-- What `get_meeting` hands back for one stored action item: the stored
assignee (the input's, or the `"Unassigned"` default `save_meeting`
substitutes for an absent key), the stored task (default `""`), and the
stored deadline (`NULL` when absent or null). -/
def expectedItemOut (it : ActionItemInput) : ActionItemOut :=
  { assignee := Val.s (it.assignee.getD "Unassigned")
    task := Val.s (it.task.getD "")
    deadline := match it.deadline with | some dd => Val.s dd | none => Val.null }

/-- Freshness of an id in the parent table: no stored row carries it. -/
def freshParent (m : List Row) (mid : String) : Prop :=
  ∀ r ∈ m, ¬ r.getCol "ID" = Val.s mid

/-- Freshness of an id in a child table: no stored row references it. -/
def freshChild (rows : List Row) (mid : String) : Prop :=
  ∀ r ∈ rows, ¬ r.getCol "MEETING_ID" = Val.s mid

end MeetingDb

/-! Basic lemmas about the embedded engine. -/

namespace DbFunc

theorem upcase_meetings : upcase "meetings" = "MEETINGS" := rfl

theorem upcase_key_points : upcase "key_points" = "KEY_POINTS" := rfl

theorem upcase_action_items : upcase "action_items" = "ACTION_ITEMS" := rfl

theorem upcase_decisions : upcase "decisions" = "DECISIONS" := rfl

theorem projectRow_nil (r : Row) : projectRow [] r = r := rfl

theorem map_projectRow_nil (l : List Row) : l.map (projectRow []) = l := by
  have h : projectRow [] = fun r => r := funext projectRow_nil
  rw [h, List.map_id']

theorem rowMatches_nil (r : Row) : rowMatches r [] = true := rfl

/-- Association lookup distributes over append. -/
theorem lookupTable_append (l1 l2 : DB) (n : String) :
    DB.lookupTable (l1 ++ l2) n =
      match DB.lookupTable l1 n with
      | some t => some t
      | none => DB.lookupTable l2 n := by
  induction l1 with
  | nil => simp [DB.lookupTable]
  | cons kv rest ih =>
    by_cases h : kv.1 = n
    · simp [DB.lookupTable, List.find?, h]
    · simpa [DB.lookupTable, List.find?, h] using ih

/-- Inserting into a sorted position is a permutation of consing. -/
theorem insertRow_perm (le : Val → Val → Bool) (key : Row → Val) (x : Row)
    (l : List Row) : List.Perm (insertRow le key x l) (x :: l) := by
  induction l with
  | nil => exact List.Perm.refl _
  | cons y ys ih =>
    rw [insertRow]
    cases hc : le (key y) (key x) with
    | true =>
      simp only [if_pos]
      exact (ih.cons y).trans (List.Perm.swap x y ys)
    | false =>
      simp only [hc, Bool.false_eq_true, if_neg, not_false_iff]
      exact List.Perm.refl _

/-- The modelled ORDER BY sort permutes the rows. -/
theorem sortRows_perm (le : Val → Val → Bool) (key : Row → Val)
    (l : List Row) : List.Perm (sortRows le key l) l := by
  induction l with
  | nil => exact List.Perm.refl _
  | cons x xs ih =>
    exact (insertRow_perm le key x (sortRows le key xs)).trans (ih.cons x)

theorem sortRows_length (le : Val → Val → Bool) (key : Row → Val)
    (l : List Row) : (sortRows le key l).length = l.length :=
  (sortRows_perm le key l).length_eq

/-- A list whose `col` values are the consecutive integers
`idx, idx+1, ...` is left unchanged by the ascending sort on `col`. -/
theorem sortRows_eq_self_of_orders (col : String) (l : List Row) (idx : Nat)
    (h : l.map (fun r => r.getCol col)
      = (List.range' idx l.length).map (fun j : Nat => Val.i (j : Int))) :
    sortRows valLe (fun r => r.getCol col) l = l := by
  induction l generalizing idx with
  | nil => rfl
  | cons r rest ih =>
    rw [List.map_cons, List.length_cons, List.range'_succ, List.map_cons] at h
    injection h with hr ht
    rw [sortRows, ih (idx + 1) ht]
    cases rest with
    | nil => rfl
    | cons r2 rest2 =>
      have hr2 : r2.getCol col = Val.i ((idx + 1 : Nat) : Int) := by
        rw [List.map_cons, List.length_cons, List.range'_succ, List.map_cons] at ht
        injection ht with h1 h2
      have hfalse : valLe (r2.getCol col) (r.getCol col) = false := by
        rw [hr, hr2]
        simp only [valLe, decide_eq_false_iff_not]
        omega
      simp [insertRow, hfalse]

end DbFunc

/-! Reduction lemmas for the Aggregate Mapper over a standard-schema store. -/

namespace MeetingDb

open DbFunc

/-- The parent insert of `save_meeting`, given the id is fresh. -/
theorem single_insert_meetings (m k a d : List Row)
    (mid created title tr sh : String)
    (h : m.any (fun r => r.getCol "ID" = Val.s mid) = false) :
    single_insert (mkStdDb m k a d)
      [ ("id", Val.s mid), ("created_at", Val.s created), ("title", Val.s title)
      , ("transcript", Val.s tr), ("summary_heading", Val.s sh) ] "meetings"
    = Except.ok (mkStdDb (m ++ [meetingRow mid created title tr sh]) k a d) := by
  have step : single_insert (mkStdDb m k a d)
      [ ("id", Val.s mid), ("created_at", Val.s created), ("title", Val.s title)
      , ("transcript", Val.s tr), ("summary_heading", Val.s sh) ] "meetings"
    = if (true = true) ∧ (m.any (fun r => r.getCol "ID" = Val.s mid) = true) then
        Except.error SqlError.integrityError
      else
        Except.ok (mkStdDb (m ++ [meetingRow mid created title tr sh]) k a d) := rfl
  rw [step, if_neg]
  simp [h]

/-- The key-point insert loop appends exactly one row per point, in list
order, with consecutive position values starting at `idx`. -/
theorem insertKeyPoints_ok (mid : String) (pts : List String) :
    ∀ (idx : Nat) (m k a d : List Row),
    ∃ added : List Row,
      insertKeyPoints mid pts idx (mkStdDb m k a d)
        = Except.ok (mkStdDb m (k ++ added) a d)
      ∧ added.map (fun r => r.getCol "POINT") = pts.map Val.s
      ∧ added.map (fun r => r.getCol "POINT_ORDER")
          = (List.range' idx pts.length).map (fun j : Nat => Val.i (j : Int))
      ∧ ∀ r ∈ added, r.getCol "MEETING_ID" = Val.s mid := by
  induction pts with
  | nil =>
    intro idx m k a d
    refine ⟨[], ?_, rfl, rfl, by simp⟩
    rw [List.append_nil]
    rfl
  | cons p rest ih =>
    intro idx m k a d
    have step : insertKeyPoints mid (p :: rest) idx (mkStdDb m k a d)
        = insertKeyPoints mid rest (idx + 1)
            (mkStdDb m
              (k ++ [kpRow (nextRowId (keyPointsTable k) "ID") mid p idx]) a d) := rfl
    obtain ⟨added, h1, h2, h3, h4⟩ :=
      ih (idx + 1) m (k ++ [kpRow (nextRowId (keyPointsTable k) "ID") mid p idx]) a d
    refine ⟨kpRow (nextRowId (keyPointsTable k) "ID") mid p idx :: added, ?_, ?_, ?_, ?_⟩
    · rw [step, h1, List.append_assoc]
      rfl
    · rw [List.map_cons, h2]
      rfl
    · rw [List.map_cons, h3, List.length_cons, List.range'_succ, List.map_cons]
      rfl
    · intro r hr
      rcases List.mem_cons.mp hr with h | h
      · rw [h]; rfl
      · exact h4 r h

/-- The action-item insert loop appends exactly one row per item, with the
stored defaults for missing keys. -/
theorem insertActionItems_ok (mid : String) (items : List ActionItemInput) :
    ∀ (idx : Nat) (m k a d : List Row),
    ∃ added : List Row,
      insertActionItems mid items idx (mkStdDb m k a d)
        = Except.ok (mkStdDb m k (a ++ added) d)
      ∧ added.map (fun r =>
          (⟨r.getCol "ASSIGNEE", r.getCol "TASK", r.getCol "DEADLINE"⟩ : ActionItemOut))
          = items.map expectedItemOut
      ∧ added.map (fun r => r.getCol "ITEM_ORDER")
          = (List.range' idx items.length).map (fun j : Nat => Val.i (j : Int))
      ∧ ∀ r ∈ added, r.getCol "MEETING_ID" = Val.s mid := by
  induction items with
  | nil =>
    intro idx m k a d
    refine ⟨[], ?_, rfl, rfl, by simp⟩
    rw [List.append_nil]
    rfl
  | cons it rest ih =>
    intro idx m k a d
    have step : insertActionItems mid (it :: rest) idx (mkStdDb m k a d)
        = insertActionItems mid rest (idx + 1)
            (mkStdDb m k
              (a ++ [aiRow (nextRowId (actionItemsTable a) "ID") mid it idx]) d) := rfl
    obtain ⟨added, h1, h2, h3, h4⟩ :=
      ih (idx + 1) m k (a ++ [aiRow (nextRowId (actionItemsTable a) "ID") mid it idx]) d
    refine ⟨aiRow (nextRowId (actionItemsTable a) "ID") mid it idx :: added, ?_, ?_, ?_, ?_⟩
    · rw [step, h1, List.append_assoc]
      rfl
    · rw [List.map_cons, h2]
      rfl
    · rw [List.map_cons, h3, List.length_cons, List.range'_succ, List.map_cons]
      rfl
    · intro r hr
      rcases List.mem_cons.mp hr with h | h
      · rw [h]; rfl
      · exact h4 r h

/-- The decision insert loop appends exactly one row per decision. -/
theorem insertDecisions_ok (mid : String) (decs : List String) :
    ∀ (idx : Nat) (m k a d : List Row),
    ∃ added : List Row,
      insertDecisions mid decs idx (mkStdDb m k a d)
        = Except.ok (mkStdDb m k a (d ++ added))
      ∧ added.map (fun r => r.getCol "DECISION") = decs.map Val.s
      ∧ added.map (fun r => r.getCol "DECISION_ORDER")
          = (List.range' idx decs.length).map (fun j : Nat => Val.i (j : Int))
      ∧ ∀ r ∈ added, r.getCol "MEETING_ID" = Val.s mid := by
  induction decs with
  | nil =>
    intro idx m k a d
    refine ⟨[], ?_, rfl, rfl, by simp⟩
    rw [List.append_nil]
    rfl
  | cons dc rest ih =>
    intro idx m k a d
    have step : insertDecisions mid (dc :: rest) idx (mkStdDb m k a d)
        = insertDecisions mid rest (idx + 1)
            (mkStdDb m k a
              (d ++ [decRow (nextRowId (decisionsTable d) "ID") mid dc idx])) := rfl
    obtain ⟨added, h1, h2, h3, h4⟩ :=
      ih (idx + 1) m k a (d ++ [decRow (nextRowId (decisionsTable d) "ID") mid dc idx])
    refine ⟨decRow (nextRowId (decisionsTable d) "ID") mid dc idx :: added, ?_, ?_, ?_, ?_⟩
    · rw [step, h1, List.append_assoc]
      rfl
    · rw [List.map_cons, h2]
      rfl
    · rw [List.map_cons, h3, List.length_cons, List.range'_succ, List.map_cons]
      rfl
    · intro r hr
      rcases List.mem_cons.mp hr with h | h
      · rw [h]; rfl
      · exact h4 r h

end MeetingDb

/-! Read-back lemmas over a standard-schema store. -/

namespace MeetingDb

open DbFunc

theorem except_bind_ok {α β γ : Type} (x : α) (f : α → Except γ β) :
    (Except.ok x >>= f) = f x := rfl

theorem rowMatches_single (r : Row) (key : String) (v : Val) :
    rowMatches r [(key, v)] = decide (r.getCol (upcase key) = v) := by
  simp [rowMatches]

/-- Filtering an equality predicate over old rows that all miss it and new
rows that all satisfy it keeps exactly the new rows. -/
theorem filter_matches_append (rows added : List Row) (key : String) (v : Val)
    (hfresh : ∀ r ∈ rows, ¬ r.getCol (upcase key) = v)
    (hall : ∀ r ∈ added, r.getCol (upcase key) = v) :
    (rows ++ added).filter (fun r => rowMatches r [(key, v)]) = added := by
  rw [List.filter_append]
  have h1 : rows.filter (fun r => rowMatches r [(key, v)]) = [] := by
    rw [List.filter_eq_nil_iff]
    intro r hr
    rw [rowMatches_single]
    simpa using hfresh r hr
  have h2 : added.filter (fun r => rowMatches r [(key, v)]) = added := by
    rw [List.filter_eq_self]
    intro r hr
    rw [rowMatches_single]
    simpa using hall r hr
  rw [h1, h2, List.nil_append]

theorem select_meetings_by_id (m k a d : List Row) (v : Val) :
    select (mkStdDb m k a d) [] (some [("id", v)]) none "meetings"
      = Except.ok (m.filter (fun r => rowMatches r [("id", v)])) := by
  have step : select (mkStdDb m k a d) [] (some [("id", v)]) none "meetings"
      = Except.ok ((m.filter (fun r => rowMatches r [("id", v)])).map (projectRow [])) := rfl
  rw [step, map_projectRow_nil]

theorem select_key_points_ordered (m k a d : List Row) (v : Val) :
    select (mkStdDb m k a d) [] (some [("meeting_id", v)])
      (some (OrderBy.asc "point_order")) "key_points"
      = Except.ok (sortRows valLe (fun r => r.getCol "POINT_ORDER")
          (k.filter (fun r => rowMatches r [("meeting_id", v)]))) := by
  have step : select (mkStdDb m k a d) [] (some [("meeting_id", v)])
      (some (OrderBy.asc "point_order")) "key_points"
      = Except.ok ((sortRows valLe (fun r => r.getCol "POINT_ORDER")
          (k.filter (fun r => rowMatches r [("meeting_id", v)]))).map (projectRow [])) := rfl
  rw [step, map_projectRow_nil]

theorem select_action_items_ordered (m k a d : List Row) (v : Val) :
    select (mkStdDb m k a d) [] (some [("meeting_id", v)])
      (some (OrderBy.asc "item_order")) "action_items"
      = Except.ok (sortRows valLe (fun r => r.getCol "ITEM_ORDER")
          (a.filter (fun r => rowMatches r [("meeting_id", v)]))) := by
  have step : select (mkStdDb m k a d) [] (some [("meeting_id", v)])
      (some (OrderBy.asc "item_order")) "action_items"
      = Except.ok ((sortRows valLe (fun r => r.getCol "ITEM_ORDER")
          (a.filter (fun r => rowMatches r [("meeting_id", v)]))).map
            (projectRow [])) := rfl
  rw [step, map_projectRow_nil]

theorem select_decisions_ordered (m k a d : List Row) (v : Val) :
    select (mkStdDb m k a d) [] (some [("meeting_id", v)])
      (some (OrderBy.asc "decision_order")) "decisions"
      = Except.ok (sortRows valLe (fun r => r.getCol "DECISION_ORDER")
          (d.filter (fun r => rowMatches r [("meeting_id", v)]))) := by
  have step : select (mkStdDb m k a d) [] (some [("meeting_id", v)])
      (some (OrderBy.asc "decision_order")) "decisions"
      = Except.ok ((sortRows valLe (fun r => r.getCol "DECISION_ORDER")
          (d.filter (fun r => rowMatches r [("meeting_id", v)]))).map
            (projectRow [])) := rfl
  rw [step, map_projectRow_nil]

theorem meetingRow_id (mid created title tr sh : String) :
    (meetingRow mid created title tr sh).getCol "ID" = Val.s mid := rfl

/-- Reassembly of a freshly written aggregate: each child select returns
exactly the newly inserted rows, already in position order. -/
theorem assembleMeeting_saved (m k a d kAdd aAdd dAdd : List Row)
    (mid created title tr sh : String)
    (pts : List String) (items : List ActionItemInput) (decs : List String)
    (hk : freshChild k mid) (ha : freshChild a mid) (hd : freshChild d mid)
    (hk2 : kAdd.map (fun r => r.getCol "POINT") = pts.map Val.s)
    (hk3 : kAdd.map (fun r => r.getCol "POINT_ORDER")
      = (List.range' 0 pts.length).map (fun j : Nat => Val.i (j : Int)))
    (hk4 : ∀ r ∈ kAdd, r.getCol "MEETING_ID" = Val.s mid)
    (ha2 : aAdd.map (fun r =>
        (⟨r.getCol "ASSIGNEE", r.getCol "TASK", r.getCol "DEADLINE"⟩ : ActionItemOut))
      = items.map expectedItemOut)
    (ha3 : aAdd.map (fun r => r.getCol "ITEM_ORDER")
      = (List.range' 0 items.length).map (fun j : Nat => Val.i (j : Int)))
    (ha4 : ∀ r ∈ aAdd, r.getCol "MEETING_ID" = Val.s mid)
    (hd2 : dAdd.map (fun r => r.getCol "DECISION") = decs.map Val.s)
    (hd3 : dAdd.map (fun r => r.getCol "DECISION_ORDER")
      = (List.range' 0 decs.length).map (fun j : Nat => Val.i (j : Int)))
    (hd4 : ∀ r ∈ dAdd, r.getCol "MEETING_ID" = Val.s mid) :
    assembleMeeting (mkStdDb (m ++ [meetingRow mid created title tr sh])
        (k ++ kAdd) (a ++ aAdd) (d ++ dAdd)) (meetingRow mid created title tr sh)
      = Except.ok
          { id := Val.s mid, created_at := Val.s created, title := Val.s title
            transcript := Val.s tr, summary_heading := Val.s sh
            key_points := pts.map Val.s
            action_items := items.map expectedItemOut
            decisions := decs.map Val.s } := by
  have hkl : kAdd.length = pts.length := by
    have := congrArg List.length hk2
    simpa using this
  have hal : aAdd.length = items.length := by
    have := congrArg List.length ha2
    simpa using this
  have hdl : dAdd.length = decs.length := by
    have := congrArg List.length hd2
    simpa using this
  simp only [assembleMeeting, meetingRow_id]
  rw [select_key_points_ordered, filter_matches_append k kAdd "meeting_id" (Val.s mid) hk hk4,
    sortRows_eq_self_of_orders "POINT_ORDER" kAdd 0 (by rw [hkl]; exact hk3)]
  rw [except_bind_ok]
  rw [select_action_items_ordered, filter_matches_append a aAdd "meeting_id" (Val.s mid) ha ha4,
    sortRows_eq_self_of_orders "ITEM_ORDER" aAdd 0 (by rw [hal]; exact ha3)]
  rw [except_bind_ok]
  rw [select_decisions_ordered, filter_matches_append d dAdd "meeting_id" (Val.s mid) hd hd4,
    sortRows_eq_self_of_orders "DECISION_ORDER" dAdd 0 (by rw [hdl]; exact hd3)]
  rw [except_bind_ok]
  rw [hk2, ha2, hd2]
  rfl

/-- Master lemma: saving an aggregate under a fresh identifier succeeds and
reading it back returns every scalar field and all three lists in order. -/
theorem save_get_master (m k a d : List Row) (mid title tr sh created : String)
    (pts : List String) (items : List ActionItemInput) (decs : List String)
    (hm : freshParent m mid) (hk : freshChild k mid) (ha : freshChild a mid)
    (hd : freshChild d mid) :
    ∃ kAdd aAdd dAdd : List Row,
      save_meeting (mkStdDb m k a d) mid title tr sh pts items decs created
        = Except.ok (mkStdDb (m ++ [meetingRow mid created title tr sh])
            (k ++ kAdd) (a ++ aAdd) (d ++ dAdd), mid)
      ∧ get_meeting (mkStdDb (m ++ [meetingRow mid created title tr sh])
            (k ++ kAdd) (a ++ aAdd) (d ++ dAdd)) mid
          = Except.ok (some
              { id := Val.s mid, created_at := Val.s created, title := Val.s title
                transcript := Val.s tr, summary_heading := Val.s sh
                key_points := pts.map Val.s
                action_items := items.map expectedItemOut
                decisions := decs.map Val.s }) := by
  have hany : m.any (fun r => r.getCol "ID" = Val.s mid) = false := by
    simp only [List.any_eq_false, decide_eq_true_eq]
    exact hm
  obtain ⟨kAdd, hk1, hk2, hk3, hk4⟩ :=
    insertKeyPoints_ok mid pts 0 (m ++ [meetingRow mid created title tr sh]) k a d
  obtain ⟨aAdd, ha1, ha2, ha3, ha4⟩ :=
    insertActionItems_ok mid items 0 (m ++ [meetingRow mid created title tr sh])
      (k ++ kAdd) a d
  obtain ⟨dAdd, hd1, hd2, hd3, hd4⟩ :=
    insertDecisions_ok mid decs 0 (m ++ [meetingRow mid created title tr sh])
      (k ++ kAdd) (a ++ aAdd) d
  refine ⟨kAdd, aAdd, dAdd, ?_, ?_⟩
  · simp only [save_meeting]
    rw [single_insert_meetings m k a d mid created title tr sh hany, except_bind_ok,
      hk1, except_bind_ok, ha1, except_bind_ok, hd1, except_bind_ok]
  · simp only [get_meeting]
    rw [select_meetings_by_id,
      filter_matches_append m [meetingRow mid created title tr sh] "id" (Val.s mid)
        (by simpa using hm)
        (by intro r hr; rw [List.mem_singleton.mp hr]; rfl),
      except_bind_ok]
    have hfin : (do
        let mm ← assembleMeeting (mkStdDb (m ++ [meetingRow mid created title tr sh])
          (k ++ kAdd) (a ++ aAdd) (d ++ dAdd)) (meetingRow mid created title tr sh)
        Except.ok (some mm) : Except SqlError (Option Meeting))
        = Except.ok (some
            { id := Val.s mid, created_at := Val.s created, title := Val.s title
              transcript := Val.s tr, summary_heading := Val.s sh
              key_points := pts.map Val.s
              action_items := items.map expectedItemOut
              decisions := decs.map Val.s }) := by
      rw [assembleMeeting_saved m k a d kAdd aAdd dAdd mid created title tr sh pts items decs
        hk ha hd hk2 hk3 hk4 ha2 ha3 ha4 hd2 hd3 hd4, except_bind_ok]
    exact hfin

end MeetingDb

namespace MeetingDb

open DbFunc

theorem delete_meeting_eq (m k a d : List Row) (mid : String) :
    delete_meeting (mkStdDb m k a d) mid
      = Except.ok (mkStdDb
          (m.filter (fun r => ¬ rowMatches r [("id", Val.s mid)]))
          (k.filter (fun r => ¬ rowMatches r [("meeting_id", Val.s mid)]))
          (a.filter (fun r => ¬ rowMatches r [("meeting_id", Val.s mid)]))
          (d.filter (fun r => ¬ rowMatches r [("meeting_id", Val.s mid)])),
          decide (m.length
            - (m.filter (fun r => ¬ rowMatches r [("id", Val.s mid)])).length > 0)) := rfl

theorem select_key_points_by_mid (m k a d : List Row) (v : Val) :
    select (mkStdDb m k a d) [] (some [("meeting_id", v)]) none "key_points"
      = Except.ok (k.filter (fun r => rowMatches r [("meeting_id", v)])) := by
  have step : select (mkStdDb m k a d) [] (some [("meeting_id", v)]) none "key_points"
      = Except.ok ((k.filter (fun r => rowMatches r [("meeting_id", v)])).map
          (projectRow [])) := rfl
  rw [step, map_projectRow_nil]

theorem select_action_items_by_mid (m k a d : List Row) (v : Val) :
    select (mkStdDb m k a d) [] (some [("meeting_id", v)]) none "action_items"
      = Except.ok (a.filter (fun r => rowMatches r [("meeting_id", v)])) := by
  have step : select (mkStdDb m k a d) [] (some [("meeting_id", v)]) none "action_items"
      = Except.ok ((a.filter (fun r => rowMatches r [("meeting_id", v)])).map
          (projectRow [])) := rfl
  rw [step, map_projectRow_nil]

theorem select_decisions_by_mid (m k a d : List Row) (v : Val) :
    select (mkStdDb m k a d) [] (some [("meeting_id", v)]) none "decisions"
      = Except.ok (d.filter (fun r => rowMatches r [("meeting_id", v)])) := by
  have step : select (mkStdDb m k a d) [] (some [("meeting_id", v)]) none "decisions"
      = Except.ok ((d.filter (fun r => rowMatches r [("meeting_id", v)])).map
          (projectRow [])) := rfl
  rw [step, map_projectRow_nil]

theorem filter_not_filter (l : List Row) (kvs : List (String × Val)) :
    (l.filter (fun r => ¬ rowMatches r kvs)).filter (fun r => rowMatches r kvs) = [] := by
  rw [List.filter_eq_nil_iff]
  intro r hr
  rcases List.mem_filter.mp hr with ⟨_, h2⟩
  simp at h2 ⊢
  exact h2

theorem count_meetings_eq (m k a d : List Row) :
    count_meetings (mkStdDb m k a d) = Except.ok m.length := by
  have step : count_meetings (mkStdDb m k a d)
      = Except.ok (m.map (projectRow [])).length := rfl
  rw [step, map_projectRow_nil]

theorem filter_length_lt (l : List Row) (p : Row → Bool) (x : Row)
    (hx : x ∈ l) (hpx : p x = false) : (l.filter p).length < l.length := by
  induction l with
  | nil => cases hx
  | cons y ys ih =>
    rcases List.mem_cons.mp hx with h | h
    · subst h
      rw [List.filter_cons, hpx]
      simp only [Bool.false_eq_true, if_neg, not_false_iff, List.length_cons]
      exact Nat.lt_succ_of_le (List.length_filter_le p ys)
    · rw [List.filter_cons]
      cases hpy : p y with
      | true =>
        simp only [if_pos, List.length_cons]
        exact Nat.succ_lt_succ (ih h)
      | false =>
        simp only [Bool.false_eq_true, if_neg, not_false_iff, List.length_cons]
        exact Nat.lt_succ_of_lt (ih h)

end MeetingDb

namespace MeetingDb

open DbFunc

theorem assembleMeeting_any (m k a d : List Row) (row : Row) :
    ∃ mt : Meeting, assembleMeeting (mkStdDb m k a d) row = Except.ok mt
      ∧ mt.id = row.getCol "ID" :=
  ⟨_, rfl, rfl⟩

theorem assembleAll_ids (m k a d : List Row) (rows : List Row) :
    ∃ ms : List Meeting, assembleAll (mkStdDb m k a d) rows = Except.ok ms
      ∧ ms.map Meeting.id = rows.map (fun r => r.getCol "ID") := by
  induction rows with
  | nil => exact ⟨[], rfl, rfl⟩
  | cons r rest ih =>
    obtain ⟨ms, h1, h2⟩ := ih
    obtain ⟨mt, e1, e2⟩ := assembleMeeting_any m k a d r
    refine ⟨mt :: ms, ?_, ?_⟩
    · simp only [assembleAll]
      rw [e1, except_bind_ok, h1, except_bind_ok]
    · rw [List.map_cons, List.map_cons, e2, h2]

theorem select_meetings_paged (m k a d : List Row) (lim off : Nat) :
    select (mkStdDb m k a d) [] none
      (some (OrderBy.descPaged "created_at" lim off)) "meetings"
      = Except.ok (((sortRows (fun x y => valLe y x)
          (fun r => r.getCol "CREATED_AT") m).drop off).take lim) := by
  have step : select (mkStdDb m k a d) [] none
      (some (OrderBy.descPaged "created_at" lim off)) "meetings"
      = Except.ok ((((sortRows (fun x y => valLe y x)
          (fun r => r.getCol "CREATED_AT") m).drop off).take lim).map
            (projectRow [])) := rfl
  rw [step, map_projectRow_nil]

theorem select_probe (db : DB) :
    select db [] none none "meetings"
      = match DB.lookupTable db "MEETINGS" with
        | none => Except.error SqlError.noSuchTable
        | some t => Except.ok (t.rows.map (projectRow [])) := by
  unfold select
  rw [upcase_meetings]
  cases DB.lookupTable db "MEETINGS" <;> rfl

theorem init_schema_of_has (db : DB) (t : Table)
    (h : DB.lookupTable db "MEETINGS" = some t) : _init_schema db = Except.ok db := by
  unfold _init_schema
  rw [select_probe, h]

theorem init_schema_of_missing (db : DB)
    (h : DB.lookupTable db "MEETINGS" = none) : _init_schema db = _create_tables db := by
  unfold _init_schema
  rw [select_probe, h]

theorem create_table_ok_shape (db : DB) (spec : TableSpec) (name : String)
    (db2 : DB) (h : create_table db spec name = Except.ok db2) :
    ∃ t : Table, db2 = db ++ [(upcase name, t)] := by
  unfold create_table at h
  split_ifs at h
  injection h with h2
  exact ⟨_, h2.symm⟩

end MeetingDb

namespace MeetingDb

open DbFunc

/-- C1: for every aggregate — title, transcript, summary heading, creation
timestamp, and key-point, action-item and decision lists, each possibly
empty — calling `save_meeting` and then `get_meeting` with the same (fresh)
identifier returns all scalar fields and all three lists equal to the
originals, element-for-element, in original list order; empty input lists
read back as empty lists (the aggregate's list fields are always present).
Action items read back through `expectedItemOut`, the stored image of the
input mapping. -/
theorem save_then_get_roundtrip (m k a d : List Row)
    (mid title tr sh created : String) (pts : List String)
    (items : List ActionItemInput) (decs : List String)
    (hm : freshParent m mid) (hk : freshChild k mid) (ha : freshChild a mid)
    (hd : freshChild d mid) :
    ∃ db2 : DB,
      save_meeting (mkStdDb m k a d) mid title tr sh pts items decs created
        = Except.ok (db2, mid)
      ∧ get_meeting db2 mid
          = Except.ok (some
              { id := Val.s mid, created_at := Val.s created, title := Val.s title
                transcript := Val.s tr, summary_heading := Val.s sh
                key_points := pts.map Val.s
                action_items := items.map expectedItemOut
                decisions := decs.map Val.s }) := by
  obtain ⟨kA, aA, dA, h1, h2⟩ :=
    save_get_master m k a d mid title tr sh created pts items decs hm hk ha hd
  exact ⟨_, h1, h2⟩

/-- Witness for C1 at a concrete aggregate over the empty store. -/
theorem save_then_get_roundtrip_witness :
    ∃ db2 : DB,
      save_meeting (mkStdDb [] [] [] []) "m1" "T" "Tr" "H" ["A", "B"]
          [{ assignee := some "Sam", task := some "X", deadline := none }]
          ["D1"] "2024-01-01"
        = Except.ok (db2, "m1")
      ∧ get_meeting db2 "m1"
          = Except.ok (some
              { id := Val.s "m1", created_at := Val.s "2024-01-01"
                title := Val.s "T", transcript := Val.s "Tr"
                summary_heading := Val.s "H"
                key_points := [Val.s "A", Val.s "B"]
                action_items :=
                  [{ assignee := Val.s "Sam", task := Val.s "X", deadline := Val.null }]
                decisions := [Val.s "D1"] }) := by
  obtain ⟨db2, h1, h2⟩ := save_then_get_roundtrip [] [] [] [] "m1" "T" "Tr" "H"
    "2024-01-01" ["A", "B"]
    [{ assignee := some "Sam", task := some "X", deadline := none }]
    ["D1"] (fun r hr => nomatch hr) (fun r hr => nomatch hr)
    (fun r hr => nomatch hr) (fun r hr => nomatch hr)
  exact ⟨db2, h1, h2⟩

/-- C2: after `delete_meeting(id)` completes, selecting rows of any of the
three child tables filtered by `meeting_id = id` yields zero rows — no
orphaned child row is observable by a subsequent read. -/
theorem delete_meeting_no_orphans (m k a d : List Row) (mid : String) :
    ∃ (db2 : DB) (b : Bool),
      delete_meeting (mkStdDb m k a d) mid = Except.ok (db2, b)
      ∧ select db2 [] (some [("meeting_id", Val.s mid)]) none "key_points"
          = Except.ok []
      ∧ select db2 [] (some [("meeting_id", Val.s mid)]) none "action_items"
          = Except.ok []
      ∧ select db2 [] (some [("meeting_id", Val.s mid)]) none "decisions"
          = Except.ok [] := by
  refine ⟨_, _, delete_meeting_eq m k a d mid, ?_, ?_, ?_⟩
  · rw [select_key_points_by_mid, filter_not_filter]
  · rw [select_action_items_by_mid, filter_not_filter]
  · rw [select_decisions_by_mid, filter_not_filter]

/-- C3: `delete_meeting` on an identifier with no parent row returns false
without error and leaves `count_meetings` unchanged; on an existing
identifier it returns true the first time and false the second time. -/
theorem delete_missing_idempotent (m k a d : List Row) (mid : String) :
    (freshParent m mid →
      ∃ db2 : DB,
        delete_meeting (mkStdDb m k a d) mid = Except.ok (db2, false)
        ∧ count_meetings db2 = Except.ok m.length
        ∧ count_meetings (mkStdDb m k a d) = Except.ok m.length)
  ∧ ((∃ r ∈ m, r.getCol "ID" = Val.s mid) →
      ∃ (db2 db3 : DB),
        delete_meeting (mkStdDb m k a d) mid = Except.ok (db2, true)
        ∧ delete_meeting db2 mid = Except.ok (db3, false)) := by
  constructor
  · intro hm
    have hkeep : m.filter (fun r => ¬ rowMatches r [("id", Val.s mid)]) = m := by
      rw [List.filter_eq_self]
      intro r hr
      rw [rowMatches_single]
      simpa using hm r hr
    refine ⟨mkStdDb m
        (k.filter (fun r => ¬ rowMatches r [("meeting_id", Val.s mid)]))
        (a.filter (fun r => ¬ rowMatches r [("meeting_id", Val.s mid)]))
        (d.filter (fun r => ¬ rowMatches r [("meeting_id", Val.s mid)])),
      ?_, count_meetings_eq m _ _ _, count_meetings_eq m k a d⟩
    rw [delete_meeting_eq, hkeep]
    simp
  · rintro ⟨r0, hr0, hid⟩
    have hpx : (fun r => (¬ rowMatches r [("id", Val.s mid)] : Bool)) r0 = false := by
      show (¬ rowMatches r0 [("id", Val.s mid)] : Bool) = false
      rw [rowMatches_single]
      simpa using hid
    have hlt : (m.filter (fun r => ¬ rowMatches r [("id", Val.s mid)])).length
        < m.length := filter_length_lt m _ r0 hr0 hpx
    have hb1 : decide (m.length
        - (m.filter (fun r => ¬ rowMatches r [("id", Val.s mid)])).length > 0) = true := by
      simp only [decide_eq_true_eq, gt_iff_lt]
      omega
    have hkeep2 : (m.filter (fun r => ¬ rowMatches r [("id", Val.s mid)])).filter
        (fun r => ¬ rowMatches r [("id", Val.s mid)])
        = m.filter (fun r => ¬ rowMatches r [("id", Val.s mid)]) := by
      rw [List.filter_eq_self]
      intro r hr
      exact (List.mem_filter.mp hr).2
    refine ⟨mkStdDb (m.filter (fun r => ¬ rowMatches r [("id", Val.s mid)]))
        (k.filter (fun r => ¬ rowMatches r [("meeting_id", Val.s mid)]))
        (a.filter (fun r => ¬ rowMatches r [("meeting_id", Val.s mid)]))
        (d.filter (fun r => ¬ rowMatches r [("meeting_id", Val.s mid)])),
      mkStdDb (m.filter (fun r => ¬ rowMatches r [("id", Val.s mid)]))
        ((k.filter (fun r => ¬ rowMatches r [("meeting_id", Val.s mid)])).filter
          (fun r => ¬ rowMatches r [("meeting_id", Val.s mid)]))
        ((a.filter (fun r => ¬ rowMatches r [("meeting_id", Val.s mid)])).filter
          (fun r => ¬ rowMatches r [("meeting_id", Val.s mid)]))
        ((d.filter (fun r => ¬ rowMatches r [("meeting_id", Val.s mid)])).filter
          (fun r => ¬ rowMatches r [("meeting_id", Val.s mid)])), ?_, ?_⟩
    · rw [delete_meeting_eq, hb1]
    · rw [delete_meeting_eq, hkeep2]
      simp

/-- Witness for C3: a one-meeting store; deleting a missing id returns
false and keeps the count, deleting the stored id returns true then
false. -/
theorem delete_missing_idempotent_witness :
    (∃ db2 : DB,
      delete_meeting (mkStdDb [[("ID", Val.s "m1")]] [] [] []) "zz"
        = Except.ok (db2, false)
      ∧ count_meetings db2 = Except.ok 1
      ∧ count_meetings (mkStdDb [[("ID", Val.s "m1")]] [] [] []) = Except.ok 1)
  ∧ (∃ (db2 db3 : DB),
      delete_meeting (mkStdDb [[("ID", Val.s "m1")]] [] [] []) "m1"
        = Except.ok (db2, true)
      ∧ delete_meeting db2 "m1" = Except.ok (db3, false)) := by
  constructor
  · exact (delete_missing_idempotent [[("ID", Val.s "m1")]] [] [] [] "zz").1
      (fun r hr => by rw [List.mem_singleton.mp hr]; decide)
  · exact (delete_missing_idempotent [[("ID", Val.s "m1")]] [] [] [] "m1").2
      ⟨[("ID", Val.s "m1")], by simp, rfl⟩

/-- C7: for every saved action item whose input mapping has no assignee
key, the value stored and read back for assignee is the string
"Unassigned"; and for every action item whose deadline is null or absent,
the deadline read back by `get_meeting` is NULL. -/
theorem action_item_defaults (m k a d : List Row)
    (mid title tr sh created : String) (pts : List String)
    (items : List ActionItemInput) (decs : List String)
    (hm : freshParent m mid) (hk : freshChild k mid) (ha : freshChild a mid)
    (hd : freshChild d mid) :
    ∃ (db2 : DB) (mt : Meeting),
      save_meeting (mkStdDb m k a d) mid title tr sh pts items decs created
        = Except.ok (db2, mid)
      ∧ get_meeting db2 mid = Except.ok (some mt)
      ∧ mt.action_items = items.map expectedItemOut
      ∧ (∀ it ∈ items, it.assignee = none →
          (expectedItemOut it).assignee = Val.s "Unassigned")
      ∧ (∀ it ∈ items, it.deadline = none →
          (expectedItemOut it).deadline = Val.null) := by
  obtain ⟨kA, aA, dA, h1, h2⟩ :=
    save_get_master m k a d mid title tr sh created pts items decs hm hk ha hd
  refine ⟨_, _, h1, h2, rfl, ?_, ?_⟩
  · intro it _ hnone
    simp [expectedItemOut, hnone]
  · intro it _ hnone
    simp [expectedItemOut, hnone]

/-- Witness for C7: one action item with no assignee and no deadline. -/
theorem action_item_defaults_witness :
    ∃ (db2 : DB) (mt : Meeting),
      save_meeting (mkStdDb [] [] [] []) "m2" "T" "Tr" "H" []
          [{ assignee := none, task := some "X", deadline := none }] [] "2024"
        = Except.ok (db2, "m2")
      ∧ get_meeting db2 "m2" = Except.ok (some mt)
      ∧ mt.action_items
          = [{ assignee := none, task := some "X", deadline := none
                : ActionItemInput }].map expectedItemOut
      ∧ expectedItemOut { assignee := none, task := some "X", deadline := none }
          = { assignee := Val.s "Unassigned", task := Val.s "X"
              deadline := Val.null } := by
  obtain ⟨db2, mt, h1, h2, h3, h4, h5⟩ := action_item_defaults [] [] [] []
    "m2" "T" "Tr" "H" "2024" []
    [{ assignee := none, task := some "X", deadline := none }]
    [] (fun r hr => nomatch hr) (fun r hr => nomatch hr)
    (fun r hr => nomatch hr) (fun r hr => nomatch hr)
  exact ⟨db2, mt, h1, h2, h3, rfl⟩

end MeetingDb

namespace MeetingDb

open DbFunc

/-- C9: for every store holding N saved aggregates with pairwise distinct
identifiers and every k with 0 ≤ k ≤ N, the identifiers returned by
`get_all_meetings(limit := k, offset := 0)` together with those of
`get_all_meetings(limit := N-k, offset := k)` (same default ordering) are a
permutation of all N stored identifiers — every identifier appears, none
twice. -/
theorem pagination_partition (m k a d : List Row) (kk : Nat)
    (hkk : kk ≤ m.length)
    (hnodup : (m.map (fun r => r.getCol "ID")).Nodup) :
    ∃ l1 l2 : List Meeting,
      get_all_meetings (mkStdDb m k a d) (some kk) 0 = Except.ok l1
      ∧ get_all_meetings (mkStdDb m k a d) (some (m.length - kk)) kk = Except.ok l2
      ∧ List.Perm ((l1 ++ l2).map Meeting.id) (m.map (fun r => r.getCol "ID"))
      ∧ ((l1 ++ l2).map Meeting.id).Nodup := by
  have hperm : List.Perm (sortRows (fun x y => valLe y x)
      (fun r => r.getCol "CREATED_AT") m) m :=
    sortRows_perm (fun x y => valLe y x) (fun r => r.getCol "CREATED_AT") m
  have hlen : (sortRows (fun x y => valLe y x)
      (fun r => r.getCol "CREATED_AT") m).length = m.length := hperm.length_eq
  obtain ⟨l1, e1, i1⟩ := assembleAll_ids m k a d
    (((sortRows (fun x y => valLe y x) (fun r => r.getCol "CREATED_AT") m).drop 0).take kk)
  obtain ⟨l2, e2, i2⟩ := assembleAll_ids m k a d
    (((sortRows (fun x y => valLe y x) (fun r => r.getCol "CREATED_AT") m).drop kk).take
      (m.length - kk))
  have htake : ((sortRows (fun x y => valLe y x)
      (fun r => r.getCol "CREATED_AT") m).drop kk).take (m.length - kk)
      = (sortRows (fun x y => valLe y x) (fun r => r.getCol "CREATED_AT") m).drop kk := by
    apply List.take_of_length_le
    rw [List.length_drop, hlen]
  refine ⟨l1, l2, ?_, ?_, ?_, ?_⟩
  · simp only [get_all_meetings]
    rw [select_meetings_paged, except_bind_ok]
    exact e1
  · simp only [get_all_meetings]
    rw [select_meetings_paged, except_bind_ok]
    exact e2
  · rw [List.map_append, i1, i2, htake, List.drop_zero, ← List.map_append,
      List.take_append_drop]
    exact hperm.map (fun r => r.getCol "ID")
  · rw [List.map_append, i1, i2, htake, List.drop_zero, ← List.map_append,
      List.take_append_drop]
    exact ((hperm.map (fun r => r.getCol "ID")).nodup_iff).mpr hnodup

/-- Witness for C9: two stored meetings with distinct ids, split k = 1. -/
theorem pagination_partition_witness :
    ∃ l1 l2 : List Meeting,
      get_all_meetings (mkStdDb
        [ [("ID", Val.s "a"), ("CREATED_AT", Val.s "2024-01-01")]
        , [("ID", Val.s "b"), ("CREATED_AT", Val.s "2024-01-02")] ] [] [] [])
        (some 1) 0 = Except.ok l1
      ∧ get_all_meetings (mkStdDb
        [ [("ID", Val.s "a"), ("CREATED_AT", Val.s "2024-01-01")]
        , [("ID", Val.s "b"), ("CREATED_AT", Val.s "2024-01-02")] ] [] [] [])
        (some (2 - 1)) 1 = Except.ok l2
      ∧ List.Perm ((l1 ++ l2).map Meeting.id)
          ([ [("ID", Val.s "a"), ("CREATED_AT", Val.s "2024-01-01")]
           , [("ID", Val.s "b"), ("CREATED_AT", Val.s "2024-01-02")] ].map
            (fun r => Row.getCol r "ID"))
      ∧ ((l1 ++ l2).map Meeting.id).Nodup := by
  have h := pagination_partition
    [ [("ID", Val.s "a"), ("CREATED_AT", Val.s "2024-01-01")]
    , [("ID", Val.s "b"), ("CREATED_AT", Val.s "2024-01-02")] ] [] [] [] 1
    (by decide) (by decide)
  exact h

end MeetingDb

namespace DbFunc

theorem except_bind_error {α β γ : Type} (e : γ) (f : α → Except γ β) :
    ((Except.error e : Except γ α) >>= f) = Except.error e := rfl

/-- C4 (amended): for every table, `select` with an empty equality-mapping
behaves exactly like passing no predicate (the mangled statement
`SELECT ... FROM T W` still parses, `W` becoming a table alias), but
`delete` with an empty mapping does NOT delete all rows: the mangled
`DELETE FROM T W` is a syntax error, so the call raises and removes
nothing. -/
theorem empty_mapping_select_delete (db : DB) (cols : List String)
    (ob : Option OrderBy) (name : String) :
    select db cols (some []) ob name = select db cols none ob name
    ∧ delete db (some []) name = Except.error SqlError.syntaxError := by
  constructor
  · unfold select
    cases DB.lookupTable db (upcase name) <;> simp [rowMatches]
  · rfl

/-- C4 counterexample: on a one-row meetings table, `delete` with the
empty mapping raises a syntax error and removes nothing, while `delete`
with no predicate removes every row — the two are not equivalent. -/
theorem empty_mapping_delete_counterexample :
    delete (MeetingDb.mkStdDb [[("ID", Val.s "x")]] [] [] []) (some []) "meetings"
      = Except.error SqlError.syntaxError
    ∧ delete (MeetingDb.mkStdDb [[("ID", Val.s "x")]] [] [] []) none "meetings"
      = Except.ok (MeetingDb.mkStdDb [] [] [] [], 1) := ⟨rfl, rfl⟩

/-- Witness for C4 (amended) at a concrete store and table. -/
theorem empty_mapping_select_delete_witness :
    select (MeetingDb.mkStdDb [[("ID", Val.s "x")]] [] [] []) [] (some []) none "meetings"
      = select (MeetingDb.mkStdDb [[("ID", Val.s "x")]] [] [] []) [] none none "meetings"
    ∧ delete (MeetingDb.mkStdDb [[("ID", Val.s "x")]] [] [] []) (some []) "meetings"
      = Except.error SqlError.syntaxError :=
  empty_mapping_select_delete (MeetingDb.mkStdDb [[("ID", Val.s "x")]] [] [] []) [] none
    "meetings"

/-- C5: `create_table` with a primary-key name that is not among the
declared columns raises no error and performs the mutation — the table is
created WITHOUT any primary key — contradicting the spec's SchemaError
contract and the function's own docstring (which promises returning -1). -/
theorem create_table_missing_pk_no_error :
    create_table []
      { columns := [("a", "TEXT", none)], primaryKey := some "b", foreignKeys := [] }
      "t"
      = Except.ok [("T",
          { cols := [{ name := "A", dtype := "TEXT", constr := none }]
            primaryKey := none, foreignKeys := [], rows := [] })] := rfl

/-- C10: `single_insert` with an empty values mapping builds the statement
`INSERT INTO NAME () VALUES ();`, which the engine rejects with a syntax
error before touching the table — no defaults-only row is ever inserted,
so a non-empty mapping is a precondition of insertion. -/
theorem single_insert_empty_rejected (db : DB) (name : String) :
    single_insert db [] name = Except.error SqlError.syntaxError := rfl

end DbFunc

namespace UserMod

theorem listAssign_out_of_range (xs : List PyVal) (i : Int) (v : PyVal)
    (h : (xs.length : Int) ≤ i ∨ i + xs.length < 0) :
    listAssign xs i v = Except.error "IndexError" := by
  simp only [listAssign]
  split_ifs with h1 h2 <;> first | rfl | omega

theorem listIndex_out_of_range (xs : List PyVal) (i : Int)
    (h : (xs.length : Int) ≤ i ∨ i + xs.length < 0) :
    listIndex xs i = Except.error "IndexError" := by
  simp only [listIndex]
  split_ifs with h1 h2 <;> first | rfl | omega

theorem strIndex_out_of_range (s : String) (i : Int)
    (h : (s.length : Int) ≤ i ∨ i + s.length < 0) :
    strIndex s i = Except.error "IndexError" := by
  simp only [strIndex]
  split_ifs with h1 h2 <;> first | rfl | omega

theorem strIndex_in_range (s : String) (i : Int)
    (h : ¬((s.length : Int) ≤ i ∨ i + s.length < 0)) :
    ∃ c : String, strIndex s i = Except.ok (PyVal.str c) := by
  simp only [strIndex]
  split_ifs with h1 h2 <;> first | exact ⟨_, rfl⟩ | omega

theorem dictRead_absent (kvs : List (PyKey × PyVal)) (k : PyKey)
    (h : ∀ kv ∈ kvs, ¬ kv.1 = k) :
    dictRead kvs k = Except.error "KeyError" := by
  simp only [dictRead]
  rw [List.find?_eq_none.mpr]
  intro kv hkv
  simpa using h kv hkv

end UserMod

namespace UserMod

/-- C6 (amended): an invalid field path — an out-of-range index on a list
or string field, a 2- or 3-tuple path on a field that rejects the
operation (strings accept no item assignment; integers and `None` are not
subscriptable), an absent integer key on a dict-valued field, or a 3-tuple
path whose indexed element is not a dict — makes `User.update_meeting`
raise a built-in Python exception (`IndexError`, `TypeError` or
`KeyError`), not a dedicated AddressingError (no such type exists in the
code); the record is left unmutated and no persistence call executes (the
persistence line's free name is unbound in the module, so no call ever
reaches storage). -/
theorem update_meeting_invalid_path (rec : MeetingRecord) (f kf : String)
    (i : Int) (change : PyVal) :
    (∀ xs, get_field rec f = PyVal.list xs →
      ((xs.length : Int) ≤ i ∨ i + xs.length < 0) →
      update_meeting rec (FieldPath.listElem f i) change
        = { err := some "IndexError", record := rec, persisted := false })
  ∧ (isScalar (get_field rec f) = true →
      update_meeting rec (FieldPath.listElem f i) change
        = { err := some "TypeError", record := rec, persisted := false })
  ∧ (∀ xs, get_field rec f = PyVal.list xs →
      ((xs.length : Int) ≤ i ∨ i + xs.length < 0) →
      update_meeting rec (FieldPath.mapField f i kf) change
        = { err := some "IndexError", record := rec, persisted := false })
  ∧ (∀ s, get_field rec f = PyVal.str s →
      ((s.length : Int) ≤ i ∨ i + s.length < 0) →
      update_meeting rec (FieldPath.mapField f i kf) change
        = { err := some "IndexError", record := rec, persisted := false })
  ∧ (∀ s, get_field rec f = PyVal.str s →
      ¬((s.length : Int) ≤ i ∨ i + s.length < 0) →
      update_meeting rec (FieldPath.mapField f i kf) change
        = { err := some "TypeError", record := rec, persisted := false })
  ∧ ((∃ n, get_field rec f = PyVal.int n) ∨ get_field rec f = PyVal.pynone →
      update_meeting rec (FieldPath.mapField f i kf) change
        = { err := some "TypeError", record := rec, persisted := false })
  ∧ (∀ kvs, get_field rec f = PyVal.dict kvs →
      (∀ kv ∈ kvs, ¬ kv.1 = PyKey.int i) →
      update_meeting rec (FieldPath.mapField f i kf) change
        = { err := some "KeyError", record := rec, persisted := false })
  ∧ (∀ xs x, get_field rec f = PyVal.list xs → listIndex xs i = Except.ok x →
      (isScalar x = true ∨ ∃ ys, x = PyVal.list ys) →
      update_meeting rec (FieldPath.mapField f i kf) change
        = { err := some "TypeError", record := rec, persisted := false })
  ∧ (∀ p : FieldPath, (update_meeting rec p change).persisted = false) := by
  refine ⟨?_, ?_, ?_, ?_, ?_, ?_, ?_, ?_, ?_⟩
  · intro xs hxs hrange
    simp only [update_meeting, FieldPath.fst, hxs, itemAssign,
      listAssign_out_of_range xs i change hrange]
    rfl
  · intro hs
    simp only [update_meeting, FieldPath.fst]
    cases hv : get_field rec f <;> rw [hv] at hs <;> simp [isScalar] at hs <;> rfl
  · intro xs hxs hrange
    simp only [update_meeting, FieldPath.fst, hxs,
      listIndex_out_of_range xs i hrange]
  · intro s hs hrange
    simp only [update_meeting, FieldPath.fst, hs,
      strIndex_out_of_range s i hrange]
  · intro s hs hin
    obtain ⟨c, hc⟩ := strIndex_in_range s i hin
    simp only [update_meeting, FieldPath.fst, hs, hc]
  · rintro (⟨n, hv⟩ | hv) <;> simp only [update_meeting, FieldPath.fst, hv]
  · intro kvs hv habs
    simp only [update_meeting, FieldPath.fst, hv,
      dictRead_absent kvs (PyKey.int i) habs]
  · intro xs x hxs hidx hshape
    simp only [update_meeting, FieldPath.fst, hxs, hidx]
    rcases hshape with hs | ⟨ys, hys⟩
    · cases x <;> simp [isScalar] at hs <;> rfl
    · subst hys
      rfl
  · intro p
    cases p with
    | scalar f2 => rfl
    | listElem f2 i2 =>
      simp only [update_meeting, FieldPath.fst]
      split <;> rfl
    | mapField f2 i2 k2 =>
      simp only [update_meeting, FieldPath.fst]
      repeat' split
      all_goals rfl

/-- C6 counterexample: at the concrete record whose key_points list has one
element, the 2-tuple path with index 5 raises the built-in `IndexError` —
not an "AddressingError", which names no type in the code; the record and
storage are untouched. -/
theorem update_meeting_addressing_counterexample :
    (update_meeting [("key_points", PyVal.list [PyVal.str "A"])]
        (FieldPath.listElem "key_points" 5) (PyVal.str "B")).err
      = some "IndexError"
    ∧ some "IndexError" ≠ some "AddressingError"
    ∧ (update_meeting [("key_points", PyVal.list [PyVal.str "A"])]
        (FieldPath.listElem "key_points" 5) (PyVal.str "B")).record
      = [("key_points", PyVal.list [PyVal.str "A"])]
    ∧ (update_meeting [("key_points", PyVal.list [PyVal.str "A"])]
        (FieldPath.listElem "key_points" 5) (PyVal.str "B")).persisted = false := by
  refine ⟨rfl, ?_, rfl, rfl⟩
  intro h
  injection h with h2
  exact absurd h2 (by decide)

/-- Witness for C6 (amended) at the counterexample's record and an
out-of-range index. -/
theorem update_meeting_invalid_path_witness :
    update_meeting [("key_points", PyVal.list [PyVal.str "A"])]
        (FieldPath.listElem "key_points" 5) (PyVal.str "B")
      = { err := some "IndexError"
          record := [("key_points", PyVal.list [PyVal.str "A"])]
          persisted := false } :=
  (update_meeting_invalid_path [("key_points", PyVal.list [PyVal.str "A"])]
    "key_points" "task" 5 (PyVal.str "B")).1 [PyVal.str "A"] rfl
    (Or.inl (by decide))

end UserMod

namespace MeetingDb

open DbFunc

/-- C8 counterexample: a store that holds only the meetings table.
Initialization succeeds without creating anything, although a no-predicate
probe of `key_points` would fail — so the mapper does NOT probe each of the
four tables and does not create every table whose probe fails; it probes
`meetings` alone. -/
theorem init_schema_probe_counterexample :
    _init_schema [("MEETINGS", meetingsTable [])]
      = Except.ok [("MEETINGS", meetingsTable [])]
    ∧ select [("MEETINGS", meetingsTable [])] [] none none "key_points"
      = Except.error SqlError.noSuchTable
    ∧ DB.lookupTable [("MEETINGS", meetingsTable [])] "KEY_POINTS" = none :=
  ⟨rfl, rfl, rfl⟩

/-- C8 (amended): schema initialization probes table existence with a
single no-predicate select against the `meetings` table only; when the
probe succeeds nothing is created and no error is raised, when it fails
all four tables are created in one shot, and a second initialization after
a successful one finds `meetings` present and leaves the database (schema
and rows) unchanged. -/
theorem init_schema_amended (db : DB) :
    (∀ t, DB.lookupTable db "MEETINGS" = some t → _init_schema db = Except.ok db)
  ∧ (DB.lookupTable db "MEETINGS" = none → _init_schema db = _create_tables db)
  ∧ (∀ db2, _init_schema db = Except.ok db2 → _init_schema db2 = Except.ok db2) := by
  refine ⟨init_schema_of_has db, init_schema_of_missing db, ?_⟩
  intro db2 h
  cases hm : DB.lookupTable db "MEETINGS" with
  | some t =>
    rw [init_schema_of_has db t hm] at h
    injection h with h2
    subst h2
    exact init_schema_of_has db t hm
  | none =>
    rw [init_schema_of_missing db hm] at h
    unfold _create_tables at h
    cases e1 : create_table db meetings_spec "meetings" with
    | error e => rw [e1, except_bind_error] at h; simp at h
    | ok dbm =>
      rw [e1, except_bind_ok] at h
      obtain ⟨t1, ht1⟩ := create_table_ok_shape db meetings_spec "meetings" dbm e1
      have hA : DB.lookupTable dbm "MEETINGS" = some t1 := by
        rw [ht1, lookupTable_append, hm]
        rfl
      cases e2 : create_table dbm key_points_spec "key_points" with
      | error e => rw [e2, except_bind_error] at h; simp at h
      | ok dbk =>
        rw [e2, except_bind_ok] at h
        obtain ⟨t2, ht2⟩ := create_table_ok_shape dbm key_points_spec "key_points" dbk e2
        have hB : DB.lookupTable dbk "MEETINGS" = some t1 := by
          rw [ht2, lookupTable_append, hA]
        cases e3 : create_table dbk action_items_spec "action_items" with
        | error e => rw [e3, except_bind_error] at h; simp at h
        | ok dba =>
          rw [e3, except_bind_ok] at h
          obtain ⟨t3, ht3⟩ :=
            create_table_ok_shape dbk action_items_spec "action_items" dba e3
          have hC : DB.lookupTable dba "MEETINGS" = some t1 := by
            rw [ht3, lookupTable_append, hB]
          obtain ⟨t4, ht4⟩ :=
            create_table_ok_shape dba decisions_spec "decisions" db2 h
          have hD : DB.lookupTable db2 "MEETINGS" = some t1 := by
            rw [ht4, lookupTable_append, hC]
          exact init_schema_of_has db2 t1 hD

/-- Witness for C8 (amended): on the already-initialized empty store,
initialization is the identity. -/
theorem init_schema_amended_witness :
    _init_schema (mkStdDb [] [] [] []) = Except.ok (mkStdDb [] [] [] []) :=
  (init_schema_amended (mkStdDb [] [] [] [])).1 (meetingsTable []) rfl

end MeetingDb
